import Mathlib

/-
Shallow embedding of igungor/telegram (package tlbot): bot.go plus the
type-catalog source file.  HTTP traffic is made explicit: every outbound
operation takes the network's answer(s) as arguments and returns the
outcome it would hand its caller together with the list of network calls
it issued, in order.  JSON bodies are modelled as a syntax tree; the raw
bytes of a response body are represented by their parse status
(`Body.json j` for bytes that parse to `j`, `Body.malformed s` for bytes
that do not parse).
-/

namespace Tlbot

/-- JSON value tree.  Numbers are modelled as integers: no claim in this
development depends on fractional numeric payloads. -/
inductive Json where
  | null
  | bool (b : Bool)
  | num (n : Int)
  | str (s : String)
  | arr (elems : List Json)
  | obj (fields : List (String × Json))

/-- Escape one character for JSON string output. -/
def escChar (c : Char) : String :=
  if c = '"' then "\\\"" else if c = '\\' then "\\\\" else String.singleton c

/-- Escape a string for JSON string output. -/
def escStr (s : String) : String :=
  String.join (s.toList.map escChar)

mutual

/-- Serialize a JSON tree to text (the output shape of Go's json.Marshal). -/
def printJson : Json → String
  | .null => "null"
  | .bool true => "true"
  | .bool false => "false"
  | .num n => toString n
  | .str s => "\"" ++ escStr s ++ "\""
  | .arr xs => "[" ++ printJsonList xs ++ "]"
  | .obj fs => "\x7b" ++ printJsonFields fs ++ "\x7d"

/-- Serialize a comma-separated list of JSON values. -/
def printJsonList : List Json → String
  | [] => ""
  | [x] => printJson x
  | x :: xs => printJson x ++ "," ++ printJsonList xs

/-- Serialize a comma-separated list of JSON object members. -/
def printJsonFields : List (String × Json) → String
  | [] => ""
  | [(k, v)] => "\"" ++ escStr k ++ "\":" ++ printJson v
  | (k, v) :: fs => "\"" ++ escStr k ++ "\":" ++ printJson v ++ "," ++ printJsonFields fs

end

/-- Fold one ASCII letter to lower case (the folding Go's encoding/json
applies to keys). -/
def foldChar (c : Char) : Char :=
  if 65 ≤ c.toNat ∧ c.toNat ≤ 90 then Char.ofNat (c.toNat + 32) else c

/-- Case-fold a string, ASCII letters only. -/
def foldKey (s : String) : String :=
  String.mk (s.toList.map foldChar)

/-- Go encoding/json key matching for a struct field: the JSON key matches the
field's tag either exactly or case-insensitively. -/
def goKeyMatch (tag key : String) : Bool :=
  tag == key || foldKey tag == foldKey key

/-- Find the JSON object member assigned to the struct field with the given
tag (first match; JSON bodies with duplicate keys are not modelled). -/
def lookupGo (fields : List (String × Json)) (tag : String) : Option Json :=
  match fields.find? (fun kv => goKeyMatch tag kv.1) with
  | some kv => some kv.2
  | none => none

/-- Decode a Go string field: absent or null leaves the zero value, a JSON
string sets it, any other JSON type is an unmarshal type error. -/
def getStr (fields : List (String × Json)) (tag : String) : Except Unit String :=
  match lookupGo fields tag with
  | none => .ok ""
  | some .null => .ok ""
  | some (.str s) => .ok s
  | some _ => .error ()

/-- Decode a Go int field: absent or null leaves the zero value, a JSON
number sets it, any other JSON type is an unmarshal type error. -/
def getInt (fields : List (String × Json)) (tag : String) : Except Unit Int :=
  match lookupGo fields tag with
  | none => .ok 0
  | some .null => .ok 0
  | some (.num n) => .ok n
  | some _ => .error ()

/-- Decode a Go bool field: absent or null leaves the zero value, a JSON
boolean sets it, any other JSON type is an unmarshal type error. -/
def getBool (fields : List (String × Json)) (tag : String) : Except Unit Bool :=
  match lookupGo fields tag with
  | none => .ok false
  | some .null => .ok false
  | some (.bool b) => .ok b
  | some _ => .error ()

/-- User represents a Telegram user or bot. -/
structure User where
  ID : Int := 0
  FirstName : String := ""
  LastName : String := ""
  Username : String := ""
  Title : String := ""
deriving DecidableEq

/-- IsGroupChat reports whether the message is originally sent from a chat
group. -/
def User.IsGroupChat (u : User) : Bool := u.Title != ""

/-- File is embedded in most of the media types.  FileURL and FilePath carry
the json tag "-" in the source and are never decoded from JSON. -/
structure File where
  FileID : String := ""
  FileSize : Int := 0
  FileURL : String := ""
  FilePath : String := ""
deriving DecidableEq

/-- Exists reports whether the file is already at Telegram servers. -/
def File.Exists (f : File) : Bool := f.FileID != ""

/-- IsLocal reports whether the file is the local filesystem. -/
def File.IsLocal (f : File) : Bool := f.FilePath != ""

/-- IsRemote reports whether the file is on a remote server. -/
def File.IsRemote (f : File) : Bool := f.FileURL != ""

/-- Photo represents one size of a photo or a file/sticker thumbnail. -/
structure Photo extends File where
  Width : Int := 0
  Height : Int := 0
deriving DecidableEq

/-- Audio represents an audio file. -/
structure Audio extends File where
  Duration : Int := 0
  Performer : String := ""
  Title : String := ""
  MimeType : String := ""
deriving DecidableEq

/-- Document represents a general file (as opposed to photos and audio
files). -/
structure Document extends File where
  Filename : String := ""
  Thumbnail : Photo := {}
  MimeType : String := ""
deriving DecidableEq

/-- Sticker represents a sticker. -/
structure Sticker extends File where
  Width : Int := 0
  Height : Int := 0
  Thumbnail : Photo := {}
deriving DecidableEq

/-- Video represents a video file. -/
structure Video extends File where
  Width : Int := 0
  Height : Int := 0
  Duration : Int := 0
  Thumbnail : Photo := {}
  MimeType : String := ""
  Caption : String := ""
deriving DecidableEq

/-- Contact represents a phone contact. -/
structure Contact where
  PhoneNumber : String := ""
  FirstName : String := ""
  LastName : String := ""
  UserID : String := ""
deriving DecidableEq

/-- Location represents a point on the map.  The source stores coordinates
as floating-point numbers and renders them with strconv.FormatFloat(x, 'f',
-1, 64); they are modelled here on the integral subdomain (where that
rendering coincides with plain decimal), since no claim depends on
fractional coordinate values. -/
structure Location where
  Lat : Int := 0
  Long : Int := 0
deriving DecidableEq

/-- Venue data carrier used by SendVenue.  Modelled from the spec: the Venue
struct's own declaration is not among the provided source files; its fields
are pinned by bot.go's uses venue.Location.Lat, venue.Location.Long,
venue.Title and venue.Address and by the spec's sendVenue form
(chat_id, latitude, longitude, title, address). -/
structure Venue where
  Location : Location := {}
  Title : String := ""
  Address : String := ""
deriving DecidableEq

/-- Message represents a message to be sent.  Recursive through the optional
ReplyTo field (Go: ReplyTo *Message), hence an inductive rather than a
structure; fields appear in source order. -/
inductive Message where
  | mk
    (ID : Int) (From : User) (Date : Int) (Chat : User)
    (ForwardFrom : User) (ForwardDate : Int) (ReplyTo : Option Message)
    (Text : String) (Audio : Audio) (Document : Document)
    (Photos : List Photo) (Sticker : Sticker) (Video : Video)
    (Contact : Contact) (Location : Location)
    (NewChatParticipant : User) (LeftChatParticipant : User)
    (NewChatTitle : String) (NewChatPhoto : List Photo)
    (DeleteChatPhoto : Bool) (GroupChatCreated : Bool)

/-- Unique message identifier. -/
def Message.ID : Message → Int
  | .mk i _ _ _ _ _ _ _ _ _ _ _ _ _ _ _ _ _ _ _ _ => i

/-- For text messages, the actual UTF-8 text of the message. -/
def Message.Text : Message → String
  | .mk _ _ _ _ _ _ _ t _ _ _ _ _ _ _ _ _ _ _ _ _ => t

/-- The zero value of Message (Go: Message\x7b\x7d). -/
def Message.zero : Message :=
  .mk 0 {} 0 {} {} 0 none "" {} {} [] {} {} {} {} {} {} "" [] false false

/-- Update is the inbound webhook delivery shape. -/
structure Update where
  ID : Int := 0
  Payload : Message := Message.zero

/-- Decode the embedded File's JSON fields from an enclosing object. -/
def decodeFileFields (fields : List (String × Json)) : Except Unit File := do
  let fid ← getStr fields "file_id"
  let fsize ← getInt fields "file_size"
  .ok { FileID := fid, FileSize := fsize }

/-- Decode a User value (Go json semantics: null or absent leaves the zero
value; a non-object, non-null JSON value is a type error). -/
def decodeUser (j : Json) : Except Unit User :=
  match j with
  | .null => .ok {}
  | .obj fields => do
      let id ← getInt fields "id"
      let fn ← getStr fields "first_name"
      let ln ← getStr fields "last_name"
      let un ← getStr fields "username"
      let t ← getStr fields "title"
      .ok { ID := id, FirstName := fn, LastName := ln, Username := un, Title := t }
  | _ => .error ()

/-- Decode a User struct field of an enclosing object. -/
def getUser (fields : List (String × Json)) (tag : String) : Except Unit User :=
  match lookupGo fields tag with
  | none => .ok {}
  | some v => decodeUser v

/-- Decode a Photo value. -/
def decodePhoto (j : Json) : Except Unit Photo :=
  match j with
  | .null => .ok {}
  | .obj fields => do
      let f ← decodeFileFields fields
      let w ← getInt fields "width"
      let h ← getInt fields "height"
      .ok { toFile := f, Width := w, Height := h }
  | _ => .error ()

/-- Decode a Photo struct field of an enclosing object. -/
def getPhoto (fields : List (String × Json)) (tag : String) : Except Unit Photo :=
  match lookupGo fields tag with
  | none => .ok {}
  | some v => decodePhoto v

/-- Decode a []Photo field (Go: null or absent leaves a nil slice). -/
def getPhotoList (fields : List (String × Json)) (tag : String) : Except Unit (List Photo) :=
  match lookupGo fields tag with
  | none => .ok []
  | some .null => .ok []
  | some (.arr xs) => xs.mapM decodePhoto
  | some _ => .error ()

/-- Decode an Audio value. -/
def decodeAudio (j : Json) : Except Unit Audio :=
  match j with
  | .null => .ok {}
  | .obj fields => do
      let f ← decodeFileFields fields
      let d ← getInt fields "duration"
      let p ← getStr fields "performer"
      let t ← getStr fields "title"
      let m ← getStr fields "mime_type"
      .ok { toFile := f, Duration := d, Performer := p, Title := t, MimeType := m }
  | _ => .error ()

/-- Decode a Document value. -/
def decodeDocument (j : Json) : Except Unit Document :=
  match j with
  | .null => .ok {}
  | .obj fields => do
      let f ← decodeFileFields fields
      let n ← getStr fields "file_name"
      let th ← getPhoto fields "thumb"
      let m ← getStr fields "mime_type"
      .ok { toFile := f, Filename := n, Thumbnail := th, MimeType := m }
  | _ => .error ()

/-- Decode a Sticker value. -/
def decodeSticker (j : Json) : Except Unit Sticker :=
  match j with
  | .null => .ok {}
  | .obj fields => do
      let f ← decodeFileFields fields
      let w ← getInt fields "width"
      let h ← getInt fields "height"
      let th ← getPhoto fields "thumb"
      .ok { toFile := f, Width := w, Height := h, Thumbnail := th }
  | _ => .error ()

/-- Decode a Video value. -/
def decodeVideo (j : Json) : Except Unit Video :=
  match j with
  | .null => .ok {}
  | .obj fields => do
      let f ← decodeFileFields fields
      let w ← getInt fields "width"
      let h ← getInt fields "height"
      let d ← getInt fields "duration"
      let th ← getPhoto fields "thumb"
      let m ← getStr fields "mime_type"
      let c ← getStr fields "caption"
      .ok { toFile := f, Width := w, Height := h, Duration := d, Thumbnail := th,
            MimeType := m, Caption := c }
  | _ => .error ()

/-- Decode a Contact value. -/
def decodeContact (j : Json) : Except Unit Contact :=
  match j with
  | .null => .ok {}
  | .obj fields => do
      let p ← getStr fields "phone_number"
      let fn ← getStr fields "first_name"
      let ln ← getStr fields "last_name"
      let u ← getStr fields "user_id"
      .ok { PhoneNumber := p, FirstName := fn, LastName := ln, UserID := u }
  | _ => .error ()

/-- Decode a Location value. -/
def decodeLocation (j : Json) : Except Unit Location :=
  match j with
  | .null => .ok {}
  | .obj fields => do
      let la ← getInt fields "latitude"
      let lo ← getInt fields "longitude"
      .ok { Lat := la, Long := lo }
  | _ => .error ()

/-- Helper for generic struct fields of an enclosing object. -/
def getField {α : Type} (zero : α) (dec : Json → Except Unit α)
    (fields : List (String × Json)) (tag : String) : Except Unit α :=
  match lookupGo fields tag with
  | none => .ok zero
  | some v => dec v

/-- Decode all non-recursive Message fields (everything but
reply_to_message) from the object's members, in source field order. -/
def decodeMessageRest (fields : List (String × Json)) (replyTo : Option Message) :
    Except Unit Message := do
  let id ← getInt fields "message_id"
  let from_ ← getUser fields "from"
  let date ← getInt fields "date"
  let chat ← getUser fields "chat"
  let ffrom ← getUser fields "forward_from"
  let fdate ← getInt fields "forward_date"
  let text ← getStr fields "text"
  let audio ← getField {} decodeAudio fields "audio"
  let doc ← getField {} decodeDocument fields "document"
  let photos ← getPhotoList fields "photo"
  let sticker ← getField {} decodeSticker fields "sticker"
  let video ← getField {} decodeVideo fields "video"
  let contact ← getField {} decodeContact fields "contact"
  let location ← getField {} decodeLocation fields "location"
  let newp ← getUser fields "new_chat_participant"
  let leftp ← getUser fields "left_chat_participant"
  let newtitle ← getStr fields "new_chat_title"
  let newphoto ← getPhotoList fields "new_chat_photo"
  let delphoto ← getBool fields "delete_chat_photo"
  let created ← getBool fields "group_chat_created"
  .ok (.mk id from_ date chat ffrom fdate replyTo text audio doc photos sticker
        video contact location newp leftp newtitle newphoto delphoto created)

mutual

/-- Decode a Message value; recursive through the reply_to_message member
(Go: ReplyTo *Message, where JSON null leaves the nil pointer). -/
def decodeMessage : Json → Except Unit Message
  | .null => .ok Message.zero
  | .obj fields => (decodeReplyTo fields).bind (fun replyTo => decodeMessageRest fields replyTo)
  | _ => .error ()

/-- Find and decode the reply_to_message member among an object's members
(first matching key, the same scan lookupGo performs). -/
def decodeReplyTo : List (String × Json) → Except Unit (Option Message)
  | [] => .ok none
  | (k, v) :: rest =>
      if goKeyMatch "reply_to_message" k then
        match v with
        | .null => .ok none
        | _ => Except.map some (decodeMessage v)
      else decodeReplyTo rest

end

/-- Decode an Update value (the inbound webhook delivery body). -/
def decodeUpdateJson (j : Json) : Except Unit Update :=
  match j with
  | .null => .ok {}
  | .obj fields => do
      let id ← getInt fields "update_id"
      let payload ← (match lookupGo fields "message" with
        | none => Except.ok Message.zero
        | some v => decodeMessage v)
      .ok { ID := id, Payload := payload }
  | _ => .error ()

/-- Raw bytes of an HTTP body, represented by their parse status: bytes
that parse as JSON are carried as the parsed tree, bytes that do not are
carried verbatim. -/
inductive Body where
  | malformed (raw : String)
  | json (j : Json)

/-- The raw bytes a body stands for (used where the source streams a
response body verbatim, as in SendPhoto's io.Copy). -/
def Body.bytes : Body → String
  | .malformed raw => raw
  | .json j => printJson j

/-- Decode an inbound webhook request body as an Update
(json.NewDecoder(req.Body).Decode(&u) in Listen). -/
def decodeUpdate (b : Body) : Except Unit Update :=
  match b with
  | .malformed _ => .error ()
  | .json j => decodeUpdateJson j

/-- The anonymous response-envelope struct declared inside each outbound
operation: ok flag, error code and description. -/
structure Envelope where
  OK : Bool := false
  ErrCode : Int := 0
  Desc : String := ""

/-- Decode a response body into the envelope struct, reading the error code
from the given json tag (the source uses the tag "errorcode" in SetWebhook,
SendMessage, SendLocation and SendVenue, and "error_code" in SendPhoto,
SendChatAction and getMe). -/
def decodeEnvelope (codeKey : String) (b : Body) : Except Unit Envelope :=
  match b with
  | .malformed _ => .error ()
  | .json j =>
    match j with
    | .null => .ok {}
    | .obj fields => do
        let ok ← getBool fields "ok"
        let code ← getInt fields codeKey
        let desc ← getStr fields "description"
        .ok { OK := ok, ErrCode := code, Desc := desc }
    | _ => .error ()

/-- The error value an operation returns, tagged by the call site that
produced it.  In Go all of these are plain error values; the constructors
record their provenance class.  Decode errors from encoding/json carry an
unspecified library message and are modelled without a payload. -/
inductive GoErr where
  | netErr (msg : String)
  | decodeErr
  | apiErr (msg : String)
  | fetchErr (msg : String)
  | photoPostErr (msg : String)
  | photoDecodeErr
deriving DecidableEq

/-- What an operation hands back to its caller: nil error, a non-nil error,
or a runtime panic. -/
inductive Outcome where
  | ok
  | err (e : GoErr)
  | panicked (msg : String)
deriving DecidableEq

/-- One part of a multipart/form-data request body, in written order. -/
inductive MultipartPart where
  | filePart (field filename content : String)
  | formField (name value : String)
deriving DecidableEq

/-- One outbound HTTP request, with the data the source writes into it.
Form fields are listed in the order the source composes them (Go's
url.Values encoder sorts keys on the wire; the claims are about which
fields are present and their values, not wire order). -/
inductive NetCall where
  | postForm (url : String) (fields : List (String × String))
  | get (url : String)
  | postMultipart (url : String) (parts : List MultipartPart)
deriving DecidableEq

/-- Status and body of an HTTP response. -/
structure HTTPResp where
  status : Nat := 200
  body : Body

/-- What the Go HTTP client returns for one request: a non-nil error, or a
response. -/
inductive NetResult where
  | fail (msg : String)
  | success (resp : HTTPResp)

/-- Parse modes (type ParseMode string). -/
def ParseMode := String
deriving instance DecidableEq for ParseMode

/-- ModeNone parse mode. -/
def ModeNone : ParseMode := ""

/-- ModeMarkdown parse mode. -/
def ModeMarkdown : ParseMode := "markdown"

/-- Types of actions to broadcast (type Action string). -/
def Action := String
deriving instance DecidableEq for Action

/-- Typing chat action. -/
def Typing : Action := "typing"

/-- ReplyMarkup attached to SendOptions.  Modelled from the spec: the
ReplyMarkup struct's own declaration is not among the provided source
files; bot.go pins a nil-able Keyboard slice and boolean ForceReply and
Hide fields, and the spec (section 3) describes three shapes - custom
keyboard, hide-keyboard, force-reply - each carrying a selective flag. -/
structure ReplyMarkup where
  Keyboard : Option (List (List String)) := none
  ForceReply : Bool := false
  Hide : Bool := false
  Selective : Bool := false
deriving DecidableEq

/-- Modelled from the spec: JSON serialization of a reply markup
(json.Marshal(opts.ReplyMarkup) in SendMessage; the marshalling code is not
among the provided source files).  Spec sections 3 and 9: serialization
emits the active shape - custom keyboard layout, hide-keyboard directive or
force-reply directive - with the member names of the shape types in the
type-catalog source (keyboard, hide_keyboard, force_reply, selective). -/
def ReplyMarkup.marshal (m : ReplyMarkup) : Json :=
  match m.Keyboard with
  | some rows =>
      .obj [("keyboard", .arr (rows.map (fun row => .arr (row.map Json.str)))),
            ("selective", .bool m.Selective)]
  | none =>
      if m.Hide then .obj [("hide_keyboard", .bool true), ("selective", .bool m.Selective)]
      else if m.ForceReply then .obj [("force_reply", .bool true), ("selective", .bool m.Selective)]
      else .obj []

/-- Does a JSON object carry the distinguishing member of the populated
shape of a reply markup?  (Used to state that the serialized form matches
the populated shape.) -/
def shapeMatches (m : ReplyMarkup) (j : Json) : Bool :=
  let hasKey (k : String) : Bool := match j with
    | .obj fs => fs.any (fun kv => kv.1 == k)
    | _ => false
  if m.Keyboard.isSome then hasKey "keyboard"
  else if m.Hide then hasKey "hide_keyboard"
  else if m.ForceReply then hasKey "force_reply"
  else false

/-- Optional parameters of a send operation. -/
structure SendOptions where
  ReplyToMessageID : Int := 0
  ReplyMarkup : ReplyMarkup := {}
deriving DecidableEq

/-- Bot represents a Telegram bot. -/
structure Bot where
  token : String := ""
  Info : User := {}
deriving DecidableEq

/-- Base URL of the remote API. -/
def baseURL : String := "https://api.telegram.org/bot"

/-- Shared tail of the simple form-post operations: decode the envelope with
the given error-code tag, map ok:false to the error formatted
fmt.Errorf("%v (%v)", r.Desc, r.ErrCode), a decode failure to a returned
decode error, and ok:true to a nil error. -/
def simpleFinish (codeKey : String) (body : Body) : Outcome :=
  match decodeEnvelope codeKey body with
  | .error _ => .err .decodeErr
  | .ok r => if !r.OK then .err (.apiErr (r.Desc ++ " (" ++ toString r.ErrCode ++ ")")) else .ok

/-- SetWebhook assigns bot's webhook url with the given url. -/
def SetWebhook (b : Bot) (webhook : String) (net : NetResult) : Outcome × List NetCall :=
  let call := NetCall.postForm (baseURL ++ b.token ++ "/setWebhook") [("url", webhook)]
  match net with
  | .fail m => (.err (.netErr m), [call])
  | .success resp => (simpleFinish "errorcode" resp.body, [call])

/-- The form fields SendMessage posts: chat_id, text, parse_mode and
disable_web_page_preview, plus reply_markup exactly when opts is non-nil
and its ReplyMarkup has a non-nil Keyboard, ForceReply or Hide. -/
def sendMessageFields (recipient : Int) (message : String) (mode : ParseMode)
    (preview : Bool) (opts : Option SendOptions) : List (String × String) :=
  let base := [("chat_id", toString recipient), ("text", message),
               ("parse_mode", mode), ("disable_web_page_preview", toString (!preview))]
  match opts with
  | none => base
  | some o =>
      if o.ReplyMarkup.Keyboard.isSome || o.ReplyMarkup.ForceReply || o.ReplyMarkup.Hide then
        base ++ [("reply_markup", printJson o.ReplyMarkup.marshal)]
      else base

/-- SendMessage sends text message to the recipient. -/
def SendMessage (b : Bot) (recipient : Int) (message : String) (mode : ParseMode)
    (preview : Bool) (opts : Option SendOptions) (net : NetResult) :
    Outcome × List NetCall :=
  let call := NetCall.postForm (baseURL ++ b.token ++ "/sendMessage")
    (sendMessageFields recipient message mode preview opts)
  match net with
  | .fail m => (.err (.netErr m), [call])
  | .success resp => (simpleFinish "errorcode" resp.body, [call])

/-- forwardMessage is an unimplemented placeholder. -/
def forwardMessage (_b : Bot) (_recipient : User) (_message : Message) :
    Outcome × List NetCall :=
  (.panicked "not implemented yet", [])

/-- SendPhoto sends given photo to recipient.  Only remote URLs are
supported: a photo already at Telegram servers or on the local filesystem
panics before any network call.  The first NetResult answers the http.Get
of photo.FileURL, the second answers the multipart http.Post to
sendPhoto. -/
def SendPhoto (b : Bot) (recipient : Int) (photo : Photo) (_caption : String)
    (_opts : Option SendOptions) (fetch : NetResult) (post : NetResult) :
    Outcome × List NetCall :=
  if photo.toFile.Exists then
    (.panicked "files reside in telegram servers can not be sent for now.", [])
  else if photo.toFile.IsLocal then
    (.panicked "local files can not be sent for now.", [])
  else
    let getCall := NetCall.get photo.toFile.FileURL
    match fetch with
    | .fail m => (.err (.netErr m), [getCall])
    | .success resp =>
      if resp.status ≠ 200 then
        (.err (.fetchErr ("Fetch failed (errcode: " ++ toString resp.status ++
          "). Remote URL: '" ++ photo.toFile.FileURL ++ "'")), [getCall])
      else
        let parts := [MultipartPart.filePart "photo" "image.jpg" resp.body.bytes,
                      MultipartPart.formField "chat_id" (toString recipient)]
        let postCall := NetCall.postMultipart (baseURL ++ b.token ++ "/sendPhoto") parts
        match post with
        | .fail m =>
            (.err (.photoPostErr ("Error while sending image to Telegram servers: " ++ m)),
             [getCall, postCall])
        | .success resp2 =>
            (match decodeEnvelope "error_code" resp2.body with
             | .error _ => .err .photoDecodeErr
             | .ok r =>
                if !r.OK then
                  .err (.apiErr ("Error returned from Telegram servers after sending photo: " ++
                    r.Desc ++ " (ErrorCode: " ++ toString r.ErrCode ++ ")"))
                else .ok,
             [getCall, postCall])

/-- sendAudio is an unimplemented placeholder. -/
def sendAudio (_b : Bot) (_recipient : User) (_audio : Audio)
    (_opts : Option SendOptions) : Outcome × List NetCall :=
  (.panicked "not implemented yet", [])

/-- sendDocument is an unimplemented placeholder. -/
def sendDocument (_b : Bot) (_recipient : User) (_document : Document)
    (_opts : Option SendOptions) : Outcome × List NetCall :=
  (.panicked "not implemented yet", [])

/-- sendSticker is an unimplemented placeholder. -/
def sendSticker (_b : Bot) (_recipient : User) (_sticker : Sticker)
    (_opts : Option SendOptions) : Outcome × List NetCall :=
  (.panicked "not implemented yet", [])

/-- sendVideo is an unimplemented placeholder. -/
def sendVideo (_b : Bot) (_recipient : User) (_video : Video)
    (_opts : Option SendOptions) : Outcome × List NetCall :=
  (.panicked "not implemented yet", [])

/-- sendVoice is an unimplemented placeholder. -/
def sendVoice (_b : Bot) (_recipient : User) (_audio : Audio)
    (_opts : Option SendOptions) : Outcome × List NetCall :=
  (.panicked "not implemented yet", [])

/-- SendLocation sends location point on the map. -/
def SendLocation (b : Bot) (recipient : Int) (location : Location)
    (_opts : Option SendOptions) (net : NetResult) : Outcome × List NetCall :=
  let call := NetCall.postForm (baseURL ++ b.token ++ "/sendLocation")
    [("chat_id", toString recipient), ("latitude", toString location.Lat),
     ("longitude", toString location.Long)]
  match net with
  | .fail m => (.err (.netErr m), [call])
  | .success resp => (simpleFinish "errorcode" resp.body, [call])

/-- SendVenue sends information about a venue. -/
def SendVenue (b : Bot) (recipient : Int) (venue : Venue)
    (_opts : Option SendOptions) (net : NetResult) : Outcome × List NetCall :=
  let call := NetCall.postForm (baseURL ++ b.token ++ "/sendVenue")
    [("chat_id", toString recipient), ("latitude", toString venue.Location.Lat),
     ("longitude", toString venue.Location.Long), ("title", venue.Title),
     ("address", venue.Address)]
  match net with
  | .fail m => (.err (.netErr m), [call])
  | .success resp => (simpleFinish "errorcode" resp.body, [call])

/-- SendChatAction broadcasts type of action to recipient.  Note the
source's decode branch: a failure of json Decode here returns nil, not the
error (bot.go line 311). -/
def SendChatAction (b : Bot) (recipient : Int) (action : Action) (net : NetResult) :
    Outcome × List NetCall :=
  let call := NetCall.postForm (baseURL ++ b.token ++ "/sendChatAction")
    [("chat_id", toString recipient), ("action", action)]
  match net with
  | .fail m => (.err (.netErr m), [call])
  | .success resp =>
    (match decodeEnvelope "error_code" resp.body with
     | .error _ => .ok
     | .ok r =>
        if !r.OK then .err (.apiErr (r.Desc ++ " (" ++ toString r.ErrCode ++ ")"))
        else .ok,
     [call])

/-- The envelope getMe decodes: ok, result (a User), description and
error_code. -/
structure GetMeResp where
  OK : Bool := false
  User : User := {}
  Desc : String := ""
  ErrCode : Int := 0

/-- Decode the getMe response body. -/
def decodeGetMe (b : Body) : Except Unit GetMeResp :=
  match b with
  | .malformed _ => .error ()
  | .json j =>
    match j with
    | .null => .ok {}
    | .obj fields => do
        let ok ← getBool fields "ok"
        let u ← getUser fields "result"
        let desc ← getStr fields "description"
        let code ← getInt fields "error_code"
        .ok { OK := ok, User := u, Desc := desc, ErrCode := code }
    | _ => .error ()

/-- getMe resolves the bot's identity; returns the User together with the
error slot (Go: (User, error)). -/
def getMe (token : String) (net : NetResult) : (User × Option GoErr) × List NetCall :=
  let call := NetCall.postForm (baseURL ++ token ++ "/getMe") []
  match net with
  | .fail m => (({}, some (.netErr m)), [call])
  | .success resp =>
    match decodeGetMe resp.body with
    | .error _ => (({}, some .decodeErr), [call])
    | .ok r =>
      if !r.OK then
        (({}, some (.apiErr (r.Desc ++ " (" ++ toString r.ErrCode ++ ")"))), [call])
      else ((r.User, none), [call])

/-- New creates a new Telegram bot with the given token; the error of the
identity lookup is discarded (Go: u, _ := getMe(token)). -/
def New (token : String) (net : NetResult) : Bot × List NetCall :=
  let r := getMe token net
  ({ token := token, Info := r.1.1 }, r.2)

/-- What one inbound webhook delivery produces: the HTTP status written by
the deferred WriteHeader, and the Message published on the channel (none
when nothing is published).  The publish happens before the deferred 200 is
written. -/
structure HandlerResult where
  status : Nat
  published : Option Message

/-- Per-request behavior of the handler Listen registers: decode the body
as an Update; on failure, log and respond 200 publishing nothing; on
success, publish the Update's Payload and respond 200. -/
def listenHandler (body : Body) : HandlerResult :=
  match decodeUpdate body with
  | .error _ => { status := 200, published := none }
  | .ok u => { status := 200, published := some u.Payload }

/-- An ok:false envelope body that carries the error code under both tags
the source uses ("errorcode" and "error_code"), so every operation decodes
the same code from it. -/
def okFalseBoth (d : String) (c : Int) : Body :=
  .json (.obj [("ok", .bool false), ("description", .str d),
               ("errorcode", .num c), ("error_code", .num c)])

/-- An ok:false envelope body that carries the error code only under the
key "error_code" (the remote service's actual key). -/
def errorCodeKeyBody (d : String) (c : Int) : Body :=
  .json (.obj [("ok", .bool false), ("description", .str d),
               ("error_code", .num c)])

/-- The inbound delivery body of the spec's webhook scenario. -/
def inboundScenario : Body :=
  .json (.obj [("update_id", .num 1),
               ("message", .obj [("message_id", .num 5), ("text", .str "hello")])])

/-- The Message value the scenario body decodes to. -/
def inboundScenarioMessage : Message :=
  .mk 5 {} 0 {} {} 0 none "hello" {} {} [] {} {} {} {} {} {} "" [] false false

/-- C1: the claim as frozen is false on the code.  At an ok:false envelope
with description "boom" and code 42, SendPhoto returns an error whose
message is "Error returned from Telegram servers after sending photo: boom
(ErrorCode: 42)", which is not the claimed "boom (42)". -/
theorem claim1_counterexample :
    (SendPhoto { token := "T" } 1 { toFile := { FileURL := "http://img" } } "" none
        (.success { status := 200, body := .malformed "img" })
        (.success { status := 200, body := errorCodeKeyBody "boom" 42 })).1
      = .err (.apiErr "Error returned from Telegram servers after sending photo: boom (ErrorCode: 42)")
    ∧ "Error returned from Telegram servers after sending photo: boom (ErrorCode: 42)" ≠ "boom (42)" := by
  exact ⟨rfl, by decide⟩

/-- C1 (amended): on an ok:false envelope carrying description d and code c,
SetWebhook, SendMessage, SendLocation, SendVenue, SendChatAction and getMe
all return an error whose message is exactly "<description> (<code>)";
SendPhoto alone deviates, returning the message "Error returned from
Telegram servers after sending photo: <description> (ErrorCode: <code>)". -/
theorem claim1_amended (tk w d act msg caption url : String) (c recipient : Int)
    (mode : ParseMode) (preview : Bool) (opts : Option SendOptions)
    (loc : Location) (venue : Venue) (fb : Body) :
    (SetWebhook { token := tk } w (.success { status := 200, body := okFalseBoth d c })).1
      = .err (.apiErr (d ++ " (" ++ toString c ++ ")"))
    ∧ (SendMessage { token := tk } recipient msg mode preview opts
        (.success { status := 200, body := okFalseBoth d c })).1
      = .err (.apiErr (d ++ " (" ++ toString c ++ ")"))
    ∧ (SendLocation { token := tk } recipient loc opts
        (.success { status := 200, body := okFalseBoth d c })).1
      = .err (.apiErr (d ++ " (" ++ toString c ++ ")"))
    ∧ (SendVenue { token := tk } recipient venue opts
        (.success { status := 200, body := okFalseBoth d c })).1
      = .err (.apiErr (d ++ " (" ++ toString c ++ ")"))
    ∧ (SendChatAction { token := tk } recipient act
        (.success { status := 200, body := okFalseBoth d c })).1
      = .err (.apiErr (d ++ " (" ++ toString c ++ ")"))
    ∧ ((getMe tk (.success { status := 200, body := okFalseBoth d c })).1).2
      = some (.apiErr (d ++ " (" ++ toString c ++ ")"))
    ∧ (SendPhoto { token := tk } recipient { toFile := { FileURL := url } } caption opts
        (.success { status := 200, body := fb })
        (.success { status := 200, body := okFalseBoth d c })).1
      = .err (.apiErr ("Error returned from Telegram servers after sending photo: "
          ++ d ++ " (ErrorCode: " ++ toString c ++ ")")) := by
  exact ⟨rfl, rfl, rfl, rfl, rfl, rfl, rfl⟩

/-- C2: the claim is right and the code is wrong.  When the HTTP call
succeeds but the response body is malformed, SetWebhook, SendMessage,
SendLocation, SendVenue, SendPhoto and getMe all return a non-nil
decode-class error, but SendChatAction returns nil (bot.go line 311
returns nil from the Decode-error branch), reporting success. -/
theorem claim2_code_bug (b : Bot) (recipient : Int) (action : Action)
    (raw w msg caption url tk : String) (mode : ParseMode) (preview : Bool)
    (opts : Option SendOptions) (loc : Location) (venue : Venue) (fb : Body) :
    (SendChatAction b recipient action
        (.success { status := 200, body := .malformed raw })).1 = .ok
    ∧ (SetWebhook b w (.success { status := 200, body := .malformed raw })).1
      = .err .decodeErr
    ∧ (SendMessage b recipient msg mode preview opts
        (.success { status := 200, body := .malformed raw })).1 = .err .decodeErr
    ∧ (SendLocation b recipient loc opts
        (.success { status := 200, body := .malformed raw })).1 = .err .decodeErr
    ∧ (SendVenue b recipient venue opts
        (.success { status := 200, body := .malformed raw })).1 = .err .decodeErr
    ∧ (SendPhoto b recipient { toFile := { FileURL := url } } caption opts
        (.success { status := 200, body := fb })
        (.success { status := 200, body := .malformed raw })).1 = .err .photoDecodeErr
    ∧ ((getMe tk (.success { status := 200, body := .malformed raw })).1).2
      = some .decodeErr := by
  exact ⟨rfl, rfl, rfl, rfl, rfl, rfl, rfl⟩

/-- C10: SetWebhook, SendMessage, SendLocation and SendVenue read the
envelope's error code from the json tag "errorcode", while SendPhoto,
SendChatAction and getMe read it from "error_code"; hence on an ok:false
envelope whose code sits under "error_code", the first four report code 0
while the other three report the carried code. -/
theorem claim10 (tk w d act msg caption url : String) (c recipient : Int)
    (mode : ParseMode) (preview : Bool) (opts : Option SendOptions)
    (loc : Location) (venue : Venue) (fb : Body) :
    (SetWebhook { token := tk } w (.success { status := 200, body := errorCodeKeyBody d c })).1
      = .err (.apiErr (d ++ " (0)"))
    ∧ (SendMessage { token := tk } recipient msg mode preview opts
        (.success { status := 200, body := errorCodeKeyBody d c })).1
      = .err (.apiErr (d ++ " (0)"))
    ∧ (SendLocation { token := tk } recipient loc opts
        (.success { status := 200, body := errorCodeKeyBody d c })).1
      = .err (.apiErr (d ++ " (0)"))
    ∧ (SendVenue { token := tk } recipient venue opts
        (.success { status := 200, body := errorCodeKeyBody d c })).1
      = .err (.apiErr (d ++ " (0)"))
    ∧ (SendChatAction { token := tk } recipient act
        (.success { status := 200, body := errorCodeKeyBody d c })).1
      = .err (.apiErr (d ++ " (" ++ toString c ++ ")"))
    ∧ ((getMe tk (.success { status := 200, body := errorCodeKeyBody d c })).1).2
      = some (.apiErr (d ++ " (" ++ toString c ++ ")"))
    ∧ (SendPhoto { token := tk } recipient { toFile := { FileURL := url } } caption opts
        (.success { status := 200, body := fb })
        (.success { status := 200, body := errorCodeKeyBody d c })).1
      = .err (.apiErr ("Error returned from Telegram servers after sending photo: "
          ++ d ++ " (ErrorCode: " ++ toString c ++ ")")) := by
  have key : ∀ s : String, s ++ " (" ++ toString (0 : Int) ++ ")" = s ++ " (0)" := by
    intro s
    have h0 : toString (0 : Int) = "0" := rfl
    simp [h0, String.append_assoc]
  exact ⟨(key d) ▸ rfl, (key d) ▸ rfl, (key d) ▸ rfl, (key d) ▸ rfl, rfl, rfl, rfl⟩

/-- C3: for every inbound delivery body, a decode failure yields a 200
response with nothing published, and a successful decode publishes exactly
the contained Message and responds 200; in particular the scenario body
with update_id 1 and message \x7bmessage_id 5, text "hello"\x7d publishes a
Message with ID 5 and text "hello" and responds 200. -/
theorem claim3 (body : Body) :
    (∀ e, decodeUpdate body = .error e →
      listenHandler body = { status := 200, published := none })
    ∧ (∀ u, decodeUpdate body = .ok u →
      listenHandler body = { status := 200, published := some u.Payload })
    ∧ listenHandler inboundScenario
      = { status := 200, published := some inboundScenarioMessage }
    ∧ inboundScenarioMessage.ID = 5 ∧ inboundScenarioMessage.Text = "hello" := by
  refine ⟨?_, ?_, rfl, rfl, rfl⟩
  · intro e he
    simp [listenHandler, he]
  · intro u hu
    simp [listenHandler, hu]

/-- Witness for C3 at the spec's scenario body. -/
theorem claim3_witness :
    decodeUpdate inboundScenario = .ok { ID := 1, Payload := inboundScenarioMessage }
    ∧ listenHandler inboundScenario
      = { status := 200, published := some inboundScenarioMessage } := by
  exact ⟨rfl, (claim3 inboundScenario).2.1 { ID := 1, Payload := inboundScenarioMessage } rfl⟩

/-- C4: the posted sendMessage form carries no reply_markup field when the
options are nil or the ReplyMarkup has none of its three shapes populated,
and exactly one reply_markup field - the JSON serialization of the markup,
matching the populated shape - when a shape is populated.  (The ReplyMarkup
type and its marshalling are modelled from the spec; see
ReplyMarkup.marshal.) -/
theorem claim4 (b : Bot) (recipient : Int) (message : String) (mode : ParseMode)
    (preview : Bool) (opts : Option SendOptions) (net : NetResult) :
    (SendMessage b recipient message mode preview opts net).2
      = [.postForm (baseURL ++ b.token ++ "/sendMessage")
          (sendMessageFields recipient message mode preview opts)]
    ∧ (opts = none →
        (sendMessageFields recipient message mode preview opts).countP
          (fun kv => kv.1 == "reply_markup") = 0)
    ∧ (∀ o, opts = some o → o.ReplyMarkup.Keyboard = none →
        o.ReplyMarkup.ForceReply = false → o.ReplyMarkup.Hide = false →
        (sendMessageFields recipient message mode preview opts).countP
          (fun kv => kv.1 == "reply_markup") = 0)
    ∧ (∀ o, opts = some o →
        (o.ReplyMarkup.Keyboard.isSome || o.ReplyMarkup.ForceReply || o.ReplyMarkup.Hide) = true →
        (sendMessageFields recipient message mode preview opts).countP
          (fun kv => kv.1 == "reply_markup") = 1
        ∧ (sendMessageFields recipient message mode preview opts).lookup "reply_markup"
          = some (printJson o.ReplyMarkup.marshal)
        ∧ shapeMatches o.ReplyMarkup o.ReplyMarkup.marshal = true) := by
  refine ⟨?_, ?_, ?_, ?_⟩
  · cases net <;> rfl
  · intro h; subst h; simp [sendMessageFields, List.countP, List.countP.go]
  · intro o ho h1 h2 h3
    subst ho
    simp [sendMessageFields, h1, h2, h3, List.countP, List.countP.go]
  · intro o ho hp
    subst ho
    refine ⟨?_, ?_, ?_⟩
    · simp [sendMessageFields, hp, List.countP, List.countP.go]
    · simp [sendMessageFields, hp, List.lookup]
    · rcases o with ⟨_, ⟨kb, fr, hd, sel⟩⟩
      rcases kb with _ | rows <;> rcases fr <;> rcases hd <;>
        simp_all [shapeMatches, ReplyMarkup.marshal]

/-- Witness for C4 with a populated keyboard shape and an unpopulated
markup. -/
theorem claim4_witness :
    (sendMessageFields 1 "m" ModeNone true
        (some { ReplyMarkup := { Keyboard := some [["a"]] } })).countP
      (fun kv => kv.1 == "reply_markup") = 1
    ∧ (sendMessageFields 1 "m" ModeNone true
        (some { ReplyMarkup := { Keyboard := some [["a"]] } })).lookup "reply_markup"
      = some (printJson (ReplyMarkup.marshal { Keyboard := some [["a"]] }))
    ∧ shapeMatches { Keyboard := some [["a"]] }
        (ReplyMarkup.marshal { Keyboard := some [["a"]] }) = true
    ∧ (sendMessageFields 1 "m" ModeNone true none).countP
      (fun kv => kv.1 == "reply_markup") = 0 := by
  have h1 := (claim4 { token := "" } 1 "m" ModeNone true
    (some { ReplyMarkup := { Keyboard := some [["a"]] } }) (.fail "x")).2.2.2
    { ReplyMarkup := { Keyboard := some [["a"]] } } rfl (by decide)
  have h2 := (claim4 { token := "" } 1 "m" ModeNone true none (.fail "x")).2.1 rfl
  exact ⟨h1.1, h1.2.1, h1.2.2, h2⟩

/-- C5: the claim as frozen is false on the code.  A fetch of the photo URL
answered with status 201 - a 2xx status - is not accepted: SendPhoto
returns the fetch-failed error and never issues the sendPhoto call. -/
theorem claim5_counterexample :
    SendPhoto { token := "T" } 1 { toFile := { FileURL := "http://img" } } "" none
        (.success { status := 201, body := .malformed "img" })
        (.success { status := 200, body := .json (.obj [("ok", .bool true)]) })
      = (.err (.fetchErr "Fetch failed (errcode: 201). Remote URL: 'http://img'"),
         [.get "http://img"]) := by
  rfl

/-- C5 (amended): for a remote-URL photo, SendPhoto accepts exactly fetch
status 200 (http.StatusOK), proceeding to build and issue the multipart
sendPhoto request; for every other status - other 2xx statuses included -
it returns the fetch-failed error whose message carries the offending
status and URL, and issues no sendPhoto call. -/
theorem claim5_amended (b : Bot) (recipient : Int) (url caption : String)
    (opts : Option SendOptions) (status : Nat) (fbody : Body) (post : NetResult) :
    (status ≠ 200 →
      SendPhoto b recipient { toFile := { FileURL := url } } caption opts
          (.success { status := status, body := fbody }) post
        = (.err (.fetchErr ("Fetch failed (errcode: " ++ toString status
            ++ "). Remote URL: '" ++ url ++ "'")), [.get url]))
    ∧ (SendPhoto b recipient { toFile := { FileURL := url } } caption opts
          (.success { status := 200, body := fbody }) post).2
        = [.get url,
           .postMultipart (baseURL ++ b.token ++ "/sendPhoto")
             [.filePart "photo" "image.jpg" fbody.bytes,
              .formField "chat_id" (toString recipient)]] := by
  constructor
  · intro h
    simp [SendPhoto, File.Exists, File.IsLocal, h]
  · cases post <;> rfl

/-- Witness for C5 (amended) at status 404. -/
theorem claim5_witness :
    SendPhoto { token := "T" } 7 { toFile := { FileURL := "http://img" } } "c" none
        (.success { status := 404, body := .malformed "nope" }) (.fail "unused")
      = (.err (.fetchErr "Fetch failed (errcode: 404). Remote URL: 'http://img'"),
         [.get "http://img"]) := by
  exact (claim5_amended { token := "T" } 7 "http://img" "c" none 404
    (.malformed "nope") (.fail "unused")).1 (by decide)

/-- C6: SendMessage with recipient 42, text "hi", plain mode and preview
false posts exactly chat_id=42, text=hi, parse_mode= and
disable_web_page_preview=true; in general the first four form fields are
the decimal recipient, the text, the mode token verbatim, and the string
form of the negated preview flag. -/
theorem claim6 (b : Bot) (net : NetResult) (recipient : Int) (message : String)
    (mode : ParseMode) (preview : Bool) (opts : Option SendOptions) :
    (SendMessage b 42 "hi" ModeNone false none net).2
      = [.postForm (baseURL ++ b.token ++ "/sendMessage")
          [("chat_id", "42"), ("text", "hi"), ("parse_mode", ""),
           ("disable_web_page_preview", "true")]]
    ∧ (sendMessageFields recipient message mode preview opts).take 4
      = [("chat_id", toString recipient), ("text", message), ("parse_mode", mode),
         ("disable_web_page_preview", toString (!preview))] := by
  constructor
  · cases net <;> rfl
  · rcases opts with _ | o
    · rfl
    · by_cases hp : (o.ReplyMarkup.Keyboard.isSome || o.ReplyMarkup.ForceReply
        || o.ReplyMarkup.Hide) = true
      · simp [sendMessageFields, hp]
      · simp [sendMessageFields, hp]

/-- C7: the unimplemented send variants (audio, document, sticker, video,
voice, forward) panic immediately with "not implemented yet" and issue no
network call, and SendPhoto panics immediately - likewise before any
network call - on a Telegram-resident photo (FileID set) or a local-path
photo (FilePath set). -/
theorem claim7 (b : Bot) (ru : User) (recipient : Int) (audio : Audio)
    (document : Document) (sticker : Sticker) (video : Video) (message : Message)
    (caption : String) (opts : Option SendOptions) (fetch post : NetResult) :
    sendAudio b ru audio opts = (.panicked "not implemented yet", [])
    ∧ sendDocument b ru document opts = (.panicked "not implemented yet", [])
    ∧ sendSticker b ru sticker opts = (.panicked "not implemented yet", [])
    ∧ sendVideo b ru video opts = (.panicked "not implemented yet", [])
    ∧ sendVoice b ru audio opts = (.panicked "not implemented yet", [])
    ∧ forwardMessage b ru message = (.panicked "not implemented yet", [])
    ∧ (∀ photo : Photo, photo.toFile.FileID ≠ "" →
        SendPhoto b recipient photo caption opts fetch post
          = (.panicked "files reside in telegram servers can not be sent for now.", []))
    ∧ (∀ photo : Photo, photo.toFile.FileID = "" → photo.toFile.FilePath ≠ "" →
        SendPhoto b recipient photo caption opts fetch post
          = (.panicked "local files can not be sent for now.", [])) := by
  refine ⟨rfl, rfl, rfl, rfl, rfl, rfl, ?_, ?_⟩
  · intro photo h
    simp [SendPhoto, File.Exists, h]
  · intro photo h1 h2
    simp [SendPhoto, File.Exists, File.IsLocal, h1, h2]

/-- Witness for C7 at a Telegram-resident photo and a local-path photo. -/
theorem claim7_witness :
    SendPhoto { token := "T" } 1 { toFile := { FileID := "abc" } } "c" none
        (.fail "unused") (.fail "unused")
      = (.panicked "files reside in telegram servers can not be sent for now.", [])
    ∧ SendPhoto { token := "T" } 1 { toFile := { FilePath := "/tmp/a.jpg" } } "c" none
        (.fail "unused") (.fail "unused")
      = (.panicked "local files can not be sent for now.", []) := by
  constructor
  · exact (claim7 { token := "T" } {} 1 {} {} {} {} Message.zero "c" none
      (.fail "unused") (.fail "unused")).2.2.2.2.2.2.1
      { toFile := { FileID := "abc" } } (by decide)
  · exact (claim7 { token := "T" } {} 1 {} {} {} {} Message.zero "c" none
      (.fail "unused") (.fail "unused")).2.2.2.2.2.2.2
      { toFile := { FilePath := "/tmp/a.jpg" } } rfl (by decide)

/-- C8: New(token) always returns a Bot and never signals failure: the Bot
carries the given token, and whenever the getMe identity lookup returns a
non-nil error that error is discarded and Info is the zero-valued User;
otherwise Info is the looked-up User. -/
theorem claim8 (token : String) (net : NetResult) :
    (New token net).1.token = token
    ∧ (((getMe token net).1).2.isSome = true → (New token net).1.Info = {})
    ∧ (New token net).1.Info = ((getMe token net).1).1 := by
  refine ⟨rfl, ?_, rfl⟩
  intro h
  cases net with
  | fail m => rfl
  | success resp =>
    show ((getMe token (.success resp)).1).1 = {}
    simp only [getMe] at h ⊢
    cases hd : decodeGetMe resp.body with
    | error e => simp [hd]
    | ok r =>
      simp only [hd] at h ⊢
      by_cases hOK : r.OK
      · simp [hOK] at h
      · simp [hOK]

/-- Witness for C8 at a failing identity lookup. -/
theorem claim8_witness :
    ((getMe "t" (.fail "down")).1).2.isSome = true
    ∧ (New "t" (.fail "down")).1.token = "t"
    ∧ (New "t" (.fail "down")).1.Info = {} := by
  exact ⟨rfl, (claim8 "t" (.fail "down")).1, (claim8 "t" (.fail "down")).2.1 rfl⟩

/-- C9: SendPhoto ignores its caption and options arguments entirely - for
any two captions and any two option values the whole result (outcome and
network calls) is identical - and on a successful status-200 fetch of a
remote-URL photo the multipart body it posts contains exactly the photo
file part (field photo, filename image.jpg, the fetched bytes) and the
chat_id field. -/
theorem claim9 (b : Bot) (recipient : Int) (photo : Photo) (c1 c2 : String)
    (o1 o2 : Option SendOptions) (fetch post : NetResult) :
    SendPhoto b recipient photo c1 o1 fetch post
      = SendPhoto b recipient photo c2 o2 fetch post
    ∧ (∀ fbody, fetch = .success { status := 200, body := fbody } →
        photo.toFile.FileID = "" → photo.toFile.FilePath = "" →
        (SendPhoto b recipient photo c1 o1 fetch post).2
          = [.get photo.toFile.FileURL,
             .postMultipart (baseURL ++ b.token ++ "/sendPhoto")
               [.filePart "photo" "image.jpg" fbody.bytes,
                .formField "chat_id" (toString recipient)]]) := by
  refine ⟨rfl, ?_⟩
  intro fbody hf h1 h2
  subst hf
  cases post <;> simp [SendPhoto, File.Exists, File.IsLocal, h1, h2]

/-- Witness for C9 at a successful 200 fetch. -/
theorem claim9_witness :
    (SendPhoto { token := "T" } 9 { toFile := { FileURL := "http://img" } } "cap" none
        (.success { status := 200, body := .malformed "bytes" }) (.fail "down")).2
      = [.get "http://img",
         .postMultipart (baseURL ++ "T" ++ "/sendPhoto")
           [.filePart "photo" "image.jpg" "bytes",
            .formField "chat_id" "9"]] := by
  exact (claim9 { token := "T" } 9 { toFile := { FileURL := "http://img" } } "cap" "x"
    none (some {}) (.success { status := 200, body := .malformed "bytes" })
    (.fail "down")).2 (.malformed "bytes") rfl rfl rfl
